import Mathlib

/-!
# Verification of the Dooray working-times attendance client

Shallow embedding of `src/dooray_client.py` (and the settings it consumes
from `src/config.py`).  The module-level mutable globals
`_cached_cookies` / `_cookie_cached_at` become an explicit `CacheState`
threaded through the functions; the external world (the headless browser
driven by the login flow, and the HTTP POST to the attendance endpoint)
is modelled by oracle values describing its observable outcome; Python
exceptions become an `Except` layer that `request_attendance`'s
`try/except` discharges.  Wall-clock readings of `time.time()` are
modelled as integer seconds supplied at each read site.  Every function
records a trace of externally visible events (browser launches, login
flows, cache invalidations, HTTP POSTs) so that counting claims
("exactly one login flow", "zero browser launches") can be stated.
-/

set_option maxRecDepth 4000

namespace WorkingTimes

/-- Association lists standing for Python `dict`s (insertion ordered). -/
abbrev Dict (α : Type) := List (String × α)

/-- Python `d[k] = v`: update in place when the key exists (its position is
kept), append otherwise. -/
def dictSet {α : Type} : Dict α → String → α → Dict α
  | [], k, v => [(k, v)]
  | (k', v') :: rest, k, v =>
    if k' = k then (k, v) :: rest else (k', v') :: dictSet rest k v

/-- Python `d.get(k)`. -/
def dictLookup {α : Type} : Dict α → String → Option α
  | [], _ => none
  | (k', v') :: rest, k => if k' = k then some v' else dictLookup rest k

/-- JSON values, as produced by `response.json()`. -/
inductive Json where
  | null
  | bool (b : Bool)
  | num (n : Int)
  | str (s : String)
  | arr (elems : List Json)
  | obj (fields : List (String × Json))

/-- `result.get("status_code")`-style field access on a JSON value. -/
def Json.getField : Json → String → Option Json
  | .obj fields, k => dictLookup fields k
  | _, _ => none

/-- The per-tenant settings consumed from `src/config.py` (`Settings`). -/
structure Settings where
  DOORAY_LOGIN_USERNAME : String
  DOORAY_LOGIN_PASSWORD : String
  DOORAY_SUBDOMAIN : String

/-- `DoorayEndpoints` dataclass. -/
structure DoorayEndpoints where
  login_url : String
  origin : String
  working_times_api_url : String

/-- `build_endpoints`: derive the login URL, tenant origin and attendance
API URL from the configured subdomain. -/
def build_endpoints (s : Settings) : DoorayEndpoints :=
  let login_url := "https://dooray.com/orgs"
  let origin := "https://" ++ s.DOORAY_SUBDOMAIN ++ ".dooray.com"
  let working_times_api_url := origin ++ "/wapi/work-schedule/v1/working-times"
  ⟨login_url, origin, working_times_api_url⟩

/-- `_COOKIE_CACHE_TTL = 30 * 60` (seconds). -/
def COOKIE_CACHE_TTL : Int := 30 * 60

/-- The module globals `_cached_cookies : Optional[dict]` and
`_cookie_cached_at : float` (time modelled in integer seconds). -/
structure CacheState where
  cached_cookies : Option (Dict String)
  cookie_cached_at : Int

/-- `_is_cookie_valid`: Python's `not _cached_cookies` is true both for
`None` and for an empty dict, so both are invalid; otherwise the session
is valid iff strictly younger than the TTL. -/
def is_cookie_valid (st : CacheState) (now : Int) : Bool :=
  match st.cached_cookies with
  | none => false
  | some [] => false
  | some (_ :: _) => decide (now - st.cookie_cached_at < COOKIE_CACHE_TTL)

/-- `_invalidate_cookie_cache`: clear cookies, zero the timestamp. -/
def invalidate_cookie_cache (_st : CacheState) : CacheState :=
  ⟨none, 0⟩

/-- Python exceptions that can cross `_get_cookies` / `_call_attendance_api`
into `request_attendance`'s `try/except` ladder, grouped by which handler
catches them (`httpx.TimeoutException` before `httpx.RequestError` before
bare `Exception`). -/
inductive PyExn where
  | httpxTimeout
  | httpxRequestError (msg : String)
  | otherExn (msg : String)

/-- The three `except` arms of `request_attendance`, each producing the
error dictionary the code returns. -/
def exnToResult : PyExn → Json
  | .httpxTimeout => .obj [("error", .str "타임아웃")]
  | .httpxRequestError m => .obj [("error", .str m)]
  | .otherExn m => .obj [("error", .str m)]

/-- What the driven browser does in one `_login_and_get_cookies` run:
either some UI-wait step fails (times out) before the credential fields
are reached, or the flow reaches `context.cookies()` and that call yields
the given raw cookie list. -/
inductive BrowserEnv where
  | uiTimeout (msg : String)
  | ok (rawCookies : List (String × String))

/-- The dict comprehension `{c["name"]: c["value"] for c in cookies}`
(later duplicates overwrite earlier ones, insertion order kept). -/
def cookiesToDict (raw : List (String × String)) : Dict String :=
  raw.foldl (fun d c => dictSet d c.1 c.2) []

/-- An HTTP request as issued by `client.post` inside
`_call_attendance_api` (client constructed with the cookie dict and
`timeout=30.0`). -/
structure PostRequest where
  url : String
  jsonPayload : Json
  headers : Dict String
  cookies : Dict String
  timeoutSeconds : Int

/-- Externally visible events, recorded in order of occurrence. -/
inductive Event where
  | cookieFetch (force_refresh : Bool)
  | loginFlow
  | browserLaunch
  | cacheInvalidate
  | httpPost (req : PostRequest)

/-- `_login_and_get_cookies`: launch a browser, drive the login UI.  The
credential check (raising `ValueError` when username or password is
empty) sits in the middle of the flow, after the browser has launched and
the login form has been reached; zero cookies from the context also raise
`ValueError`.  Events: one login flow, one browser launch, always. -/
def login_and_get_cookies (s : Settings) (env : BrowserEnv) :
    Except PyExn (Dict String) × List Event :=
  let evs := [Event.loginFlow, Event.browserLaunch]
  match env with
  | .uiTimeout msg => (.error (.otherExn msg), evs)
  | .ok raw =>
    if s.DOORAY_LOGIN_USERNAME = "" ∨ s.DOORAY_LOGIN_PASSWORD = "" then
      (.error (.otherExn "DOORAY_LOGIN_USERNAME 또는 DOORAY_LOGIN_PASSWORD가 설정되지 않았습니다."), evs)
    else if raw = [] then
      (.error (.otherExn "쿠키를 획득하지 못했습니다."), evs)
    else
      (.ok (cookiesToDict raw), evs)

/-- `_get_cookies`: under `_cookie_lock`, serve the cache when it is valid
and no refresh is forced, otherwise run the login flow and store its
result with a fresh timestamp (`nowStore` is the `time.time()` read after
the login returns; `nowCheck` the one inside `_is_cookie_valid`).  On an
exception from the login flow the globals are left untouched. -/
def get_cookies (s : Settings) (st : CacheState) (env : BrowserEnv)
    (nowCheck nowStore : Int) (force_refresh : Bool) :
    Except PyExn (Dict String) × CacheState × List Event :=
  let evs := [Event.cookieFetch force_refresh]
  if !force_refresh && is_cookie_valid st nowCheck then
    (.ok (st.cached_cookies.getD []), st, evs)
  else
    match login_and_get_cookies s env with
    | (.ok d, ev') => (.ok d, ⟨some d, nowStore⟩, evs ++ ev')
    | (.error e, ev') => (.error e, st, evs ++ ev')

/-- Outcome of the POST to the attendance endpoint: raised
`httpx.TimeoutException`, raised `httpx.RequestError`, or a response with
a status code, a body that either parses as JSON or not, and raw text. -/
structure HttpResponse where
  status_code : Nat
  jsonBody : Option Json
  text : String

inductive PostEnv where
  | timeout
  | requestError (msg : String)
  | response (r : HttpResponse)

/-- `_call_attendance_api`: POST the payload; 401/403 short-circuits to
(`{"error": "인증 실패"}`, `False`) before any body parsing; otherwise the
body is parsed as JSON (a parse failure synthesizes an error dict with
the status code and the first 500 characters of the raw text), and a
non-200 status is written into the result dict (`result["status_code"]`,
a `TypeError` if the parsed JSON is not a dict).  The second component of
the pair is the `success` flag. -/
def call_attendance_api (endpoints : DoorayEndpoints) (cookie_dict : Dict String)
    (base_date attendance_type : String) (env : PostEnv) :
    Except PyExn (Json × Bool) × List Event :=
  let request_payload : Json :=
    .obj [("baseDate", .str base_date), ("attendanceType", .str attendance_type)]
  let req : PostRequest :=
    { url := endpoints.working_times_api_url
      jsonPayload := request_payload
      headers := [("Content-Type", "application/json"),
                  ("Referer", endpoints.origin ++ "/"),
                  ("Origin", endpoints.origin)]
      cookies := cookie_dict
      timeoutSeconds := 30 }
  let evs := [Event.httpPost req]
  match env with
  | .timeout => (.error .httpxTimeout, evs)
  | .requestError m => (.error (.httpxRequestError m), evs)
  | .response r =>
    if r.status_code = 401 ∨ r.status_code = 403 then
      (.ok (.obj [("error", .str "인증 실패")], false), evs)
    else
      let result : Json :=
        match r.jsonBody with
        | some j => j
        | none =>
          .obj [("error", .str "JSON 파싱 실패"),
                ("status_code", .num r.status_code),
                ("response_text", .str (r.text.take 500))]
      if r.status_code ≠ 200 then
        match result with
        | .obj fields =>
          (.ok (.obj (dictSet fields "status_code" (.num r.status_code)), true), evs)
        | _ => (.error (.otherExn "TypeError: item assignment on non-dict JSON"), evs)
      else
        (.ok (result, true), evs)

/-- The external oracle for one `request_attendance` run: browser behaviour and
POST outcome for the first attempt and for the (possible) retry, plus the
`time.time()` readings of each `_get_cookies` call. -/
structure RunEnv where
  login1 : BrowserEnv
  login2 : BrowserEnv
  post1 : PostEnv
  post2 : PostEnv
  t1 : Int
  t1s : Int
  t2 : Int
  t2s : Int

/-- `request_attendance`: fetch cookies from the cache, POST once; when
the POST reports an auth failure (success flag `False`), invalidate the
cache, force-refresh the cookies and POST exactly once more, returning
that second result whatever its flag.  Every exception raised below is
caught by the `except` ladder and turned into an error dict. -/
def request_attendance (s : Settings) (st : CacheState) (env : RunEnv)
    (base_date attendance_type : String) : Json × CacheState × List Event :=
  let endpoints := build_endpoints s
  match get_cookies s st env.login1 env.t1 env.t1s false with
  | (.error e, st1, ev1) => (exnToResult e, st1, ev1)
  | (.ok cookie_dict, st1, ev1) =>
    match call_attendance_api endpoints cookie_dict base_date attendance_type env.post1 with
    | (.error e, evP1) => (exnToResult e, st1, ev1 ++ evP1)
    | (.ok (result, success), evP1) =>
      if success then (result, st1, ev1 ++ evP1)
      else
        let st2 := invalidate_cookie_cache st1
        let ev := ev1 ++ evP1 ++ [Event.cacheInvalidate]
        match get_cookies s st2 env.login2 env.t2 env.t2s true with
        | (.error e, st3, ev2) => (exnToResult e, st3, ev ++ ev2)
        | (.ok cookie_dict2, st3, ev2) =>
          match call_attendance_api endpoints cookie_dict2 base_date attendance_type env.post2 with
          | (.error e, evP2) => (exnToResult e, st3, ev ++ ev2 ++ evP2)
          | (.ok (result2, _), evP2) => (result2, st3, ev ++ ev2 ++ evP2)

/-- Event counters. -/
def countLoginFlows (evs : List Event) : Nat :=
  (evs.filter fun e => match e with | .loginFlow => true | _ => false).length

def countBrowserLaunches (evs : List Event) : Nat :=
  (evs.filter fun e => match e with | .browserLaunch => true | _ => false).length

def countInvalidates (evs : List Event) : Nat :=
  (evs.filter fun e => match e with | .cacheInvalidate => true | _ => false).length

def countPosts (evs : List Event) : Nat :=
  (evs.filter fun e => match e with | .httpPost _ => true | _ => false).length

/-! ## Helper lemmas -/

theorem countPosts_append (a b : List Event) :
    countPosts (a ++ b) = countPosts a + countPosts b := by
  simp [countPosts, List.filter_append]

theorem countLoginFlows_append (a b : List Event) :
    countLoginFlows (a ++ b) = countLoginFlows a + countLoginFlows b := by
  simp [countLoginFlows, List.filter_append]

theorem countBrowserLaunches_append (a b : List Event) :
    countBrowserLaunches (a ++ b) = countBrowserLaunches a + countBrowserLaunches b := by
  simp [countBrowserLaunches, List.filter_append]

theorem countInvalidates_append (a b : List Event) :
    countInvalidates (a ++ b) = countInvalidates a + countInvalidates b := by
  simp [countInvalidates, List.filter_append]

/-- Every run of the login flow records exactly one login flow and one
browser launch, whatever the browser does. -/
theorem login_events (s : Settings) (env : BrowserEnv) :
    (login_and_get_cookies s env).2 = [Event.loginFlow, Event.browserLaunch] := by
  cases env with
  | uiTimeout msg => rfl
  | ok raw =>
    simp only [login_and_get_cookies]
    split_ifs <;> rfl

/-- `dictSet` never returns an empty dict. -/
theorem dictSet_ne_nil {α : Type} (d : Dict α) (k : String) (v : α) :
    dictSet d k v ≠ [] := by
  cases d with
  | nil => simp [dictSet]
  | cons hd tl =>
    simp only [dictSet]
    split_ifs <;> simp

theorem foldl_dictSet_ne_nil (l : List (String × String)) (d : Dict String) (hd : d ≠ []) :
    l.foldl (fun d c => dictSet d c.1 c.2) d ≠ [] := by
  induction l generalizing d with
  | nil => exact hd
  | cons c rest ih => exact ih (dictSet d c.1 c.2) (dictSet_ne_nil d c.1 c.2)

/-- The cookie dict built from a non-empty raw cookie list is non-empty. -/
theorem cookiesToDict_ne_nil (raw : List (String × String)) (h : raw ≠ []) :
    cookiesToDict raw ≠ [] := by
  cases raw with
  | nil => exact absurd rfl h
  | cons c rest =>
    simp only [cookiesToDict, List.foldl_cons]
    exact foldl_dictSet_ne_nil rest (dictSet [] c.1 c.2) (dictSet_ne_nil [] c.1 c.2)

/-- A successful login flow never returns an empty cookie dict. -/
theorem login_ok_ne_nil (s : Settings) (env : BrowserEnv) (d : Dict String)
    (h : (login_and_get_cookies s env).1 = .ok d) : d ≠ [] := by
  cases env with
  | uiTimeout msg => simp [login_and_get_cookies] at h
  | ok raw =>
    simp only [login_and_get_cookies] at h
    split_ifs at h with h1 h2
    all_goals simp_all
    intro hnil
    exact cookiesToDict_ne_nil raw h2 (by rw [h, hnil])

/-- The trace of `_get_cookies` contains no HTTP POST. -/
theorem countPosts_get_cookies (s : Settings) (st : CacheState) (env : BrowserEnv)
    (nc ns : Int) (f : Bool) :
    countPosts (get_cookies s st env nc ns f).2.2 = 0 := by
  simp only [get_cookies]
  split_ifs
  · rfl
  · rcases h : login_and_get_cookies s env with ⟨r, ev⟩
    have hev : ev = [Event.loginFlow, Event.browserLaunch] := by
      have := login_events s env
      rw [h] at this
      exact this
    cases r <;> simp [hev, countPosts]

/-- The trace of `_get_cookies` contains no cache invalidation. -/
theorem countInvalidates_get_cookies (s : Settings) (st : CacheState) (env : BrowserEnv)
    (nc ns : Int) (f : Bool) :
    countInvalidates (get_cookies s st env nc ns f).2.2 = 0 := by
  simp only [get_cookies]
  split_ifs
  · rfl
  · rcases h : login_and_get_cookies s env with ⟨r, ev⟩
    have hev : ev = [Event.loginFlow, Event.browserLaunch] := by
      have := login_events s env
      rw [h] at this
      exact this
    cases r <;> simp [hev, countInvalidates]

/-- The request value `_call_attendance_api` POSTs, as a function of the
endpoints, the attached cookie dict and the payload fields. -/
def mkPostRequest (endpoints : DoorayEndpoints) (cookie_dict : Dict String)
    (base_date attendance_type : String) : PostRequest :=
  { url := endpoints.working_times_api_url
    jsonPayload := .obj [("baseDate", .str base_date), ("attendanceType", .str attendance_type)]
    headers := [("Content-Type", "application/json"),
                ("Referer", endpoints.origin ++ "/"),
                ("Origin", endpoints.origin)]
    cookies := cookie_dict
    timeoutSeconds := 30 }

/-- `_call_attendance_api` records exactly one POST, of exactly the
request described by `mkPostRequest`, whatever the outcome. -/
theorem call_events (endpoints : DoorayEndpoints) (cd : Dict String)
    (d ty : String) (env : PostEnv) :
    (call_attendance_api endpoints cd d ty env).2
      = [Event.httpPost (mkPostRequest endpoints cd d ty)] := by
  cases env with
  | timeout => rfl
  | requestError m => rfl
  | response r =>
    simp only [call_attendance_api, mkPostRequest]
    split_ifs <;> (first | rfl | (split <;> rfl))

theorem countPosts_call (endpoints : DoorayEndpoints) (cd : Dict String)
    (d ty : String) (env : PostEnv) :
    countPosts (call_attendance_api endpoints cd d ty env).2 = 1 := by
  rw [call_events]
  rfl

theorem countInvalidates_call (endpoints : DoorayEndpoints) (cd : Dict String)
    (d ty : String) (env : PostEnv) :
    countInvalidates (call_attendance_api endpoints cd d ty env).2 = 0 := by
  rw [call_events]
  rfl

/-- One caller in a concurrent burst of `_get_cookies(force_refresh=False)`
invocations: the browser behaviour its login flow would see, and its two
`time.time()` readings. -/
structure BurstCall where
  env : BrowserEnv
  tCheck : Int
  tStore : Int

/-- A burst of concurrent `_get_cookies(force_refresh=False)` calls.  The
whole body of `_get_cookies` runs inside `async with _cookie_lock`, so N
concurrent calls are serialized by the lock: the burst is equivalent to
executing the N critical sections one after another in the order in which
the lock is granted, each re-checking validity when it enters.  `runBurst`
executes the calls in that (arbitrary) order, threading the shared
globals, and collects every caller's return value and the merged event
trace. -/
def runBurst (s : Settings) : List BurstCall → CacheState →
    CacheState × List (Except PyExn (Dict String)) × List Event
  | [], st => (st, [], [])
  | c :: rest, st =>
    let r := get_cookies s st c.env c.tCheck c.tStore false
    let out := runBurst s rest r.2.1
    (out.1, r.1 :: out.2.1, r.2.2 ++ out.2.2)

/-- Path characterization of `request_attendance`: the cookie fetch
raised, the exception is converted and returned. -/
theorem ra_fetch_error (s : Settings) (st : CacheState) (env : RunEnv) (d ty : String)
    (e : PyExn) (st1 : CacheState) (ev1 : List Event)
    (h1 : get_cookies s st env.login1 env.t1 env.t1s false = (.error e, st1, ev1)) :
    request_attendance s st env d ty = (exnToResult e, st1, ev1) := by
  simp [request_attendance, h1]

/-- Path characterization: cookies fetched, the first POST raised. -/
theorem ra_post1_error (s : Settings) (st : CacheState) (env : RunEnv) (d ty : String)
    (cd : Dict String) (st1 : CacheState) (ev1 : List Event) (e : PyExn) (evP1 : List Event)
    (h1 : get_cookies s st env.login1 env.t1 env.t1s false = (.ok cd, st1, ev1))
    (h2 : call_attendance_api (build_endpoints s) cd d ty env.post1 = (.error e, evP1)) :
    request_attendance s st env d ty = (exnToResult e, st1, ev1 ++ evP1) := by
  simp [request_attendance, h1, h2]

/-- Path characterization: first POST came back without an auth failure. -/
theorem ra_post1_ok (s : Settings) (st : CacheState) (env : RunEnv) (d ty : String)
    (cd : Dict String) (st1 : CacheState) (ev1 : List Event) (res : Json) (evP1 : List Event)
    (h1 : get_cookies s st env.login1 env.t1 env.t1s false = (.ok cd, st1, ev1))
    (h2 : call_attendance_api (build_endpoints s) cd d ty env.post1 = (.ok (res, true), evP1)) :
    request_attendance s st env d ty = (res, st1, ev1 ++ evP1) := by
  simp [request_attendance, h1, h2]

/-- Path characterization: first POST reported an auth failure and the
forced cookie refresh raised. -/
theorem ra_retry_fetch_error (s : Settings) (st : CacheState) (env : RunEnv) (d ty : String)
    (cd : Dict String) (st1 : CacheState) (ev1 : List Event) (res : Json) (evP1 : List Event)
    (e : PyExn) (st3 : CacheState) (ev3 : List Event)
    (h1 : get_cookies s st env.login1 env.t1 env.t1s false = (.ok cd, st1, ev1))
    (h2 : call_attendance_api (build_endpoints s) cd d ty env.post1 = (.ok (res, false), evP1))
    (h3 : get_cookies s (invalidate_cookie_cache st1) env.login2 env.t2 env.t2s true
      = (.error e, st3, ev3)) :
    request_attendance s st env d ty
      = (exnToResult e, st3, ev1 ++ evP1 ++ [Event.cacheInvalidate] ++ ev3) := by
  simp [request_attendance, h1, h2, h3]

/-- Path characterization: auth failure, refreshed cookies obtained, and
the retried POST raised. -/
theorem ra_retry_post_error (s : Settings) (st : CacheState) (env : RunEnv) (d ty : String)
    (cd : Dict String) (st1 : CacheState) (ev1 : List Event) (res : Json) (evP1 : List Event)
    (cd2 : Dict String) (st3 : CacheState) (ev3 : List Event) (e : PyExn) (evP2 : List Event)
    (h1 : get_cookies s st env.login1 env.t1 env.t1s false = (.ok cd, st1, ev1))
    (h2 : call_attendance_api (build_endpoints s) cd d ty env.post1 = (.ok (res, false), evP1))
    (h3 : get_cookies s (invalidate_cookie_cache st1) env.login2 env.t2 env.t2s true
      = (.ok cd2, st3, ev3))
    (h4 : call_attendance_api (build_endpoints s) cd2 d ty env.post2 = (.error e, evP2)) :
    request_attendance s st env d ty
      = (exnToResult e, st3, ev1 ++ evP1 ++ [Event.cacheInvalidate] ++ ev3 ++ evP2) := by
  simp [request_attendance, h1, h2, h3, h4]

/-- Path characterization: auth failure, refreshed cookies obtained, and
the retried POST returned a result — that result is returned whatever its
success flag. -/
theorem ra_retry_post_ok (s : Settings) (st : CacheState) (env : RunEnv) (d ty : String)
    (cd : Dict String) (st1 : CacheState) (ev1 : List Event) (res : Json) (evP1 : List Event)
    (cd2 : Dict String) (st3 : CacheState) (ev3 : List Event) (res2 : Json) (f2 : Bool)
    (evP2 : List Event)
    (h1 : get_cookies s st env.login1 env.t1 env.t1s false = (.ok cd, st1, ev1))
    (h2 : call_attendance_api (build_endpoints s) cd d ty env.post1 = (.ok (res, false), evP1))
    (h3 : get_cookies s (invalidate_cookie_cache st1) env.login2 env.t2 env.t2s true
      = (.ok cd2, st3, ev3))
    (h4 : call_attendance_api (build_endpoints s) cd2 d ty env.post2 = (.ok (res2, f2), evP2)) :
    request_attendance s st env d ty
      = (res2, st3, ev1 ++ evP1 ++ [Event.cacheInvalidate] ++ ev3 ++ evP2) := by
  simp [request_attendance, h1, h2, h3, h4]

/-- The cache invariant: a non-empty cached-cookies slot always holds a
non-empty cookie dict. -/
def cacheWF (st : CacheState) : Prop :=
  ∀ cs, st.cached_cookies = some cs → cs ≠ []

theorem cacheWF_invalidate (st : CacheState) : cacheWF (invalidate_cookie_cache st) := by
  intro cs hcs
  simp [invalidate_cookie_cache] at hcs

/-- `_get_cookies` preserves the invariant: it only ever stores the result
of a successful login flow, which is non-empty. -/
theorem get_cookies_wf (s : Settings) (st : CacheState) (env : BrowserEnv)
    (nc ns : Int) (f : Bool) (h : cacheWF st) :
    cacheWF (get_cookies s st env nc ns f).2.1 := by
  simp only [get_cookies]
  split_ifs
  · exact h
  · rcases hl : login_and_get_cookies s env with ⟨r, ev⟩
    cases r with
    | ok d =>
      intro cs hcs
      simp only [Option.some.injEq] at hcs
      have hd : d ≠ [] := login_ok_ne_nil s env d (by rw [hl])
      exact hcs ▸ hd
    | error e => exact h

/-- `_get_cookies` never hands back an empty cookie dict. -/
theorem get_cookies_ok_ne_nil (s : Settings) (st : CacheState) (env : BrowserEnv)
    (nc ns : Int) (f : Bool) (cs : Dict String) (h : cacheWF st)
    (hok : (get_cookies s st env nc ns f).1 = .ok cs) : cs ≠ [] := by
  simp only [get_cookies] at hok
  split_ifs at hok with hv
  · rcases hc : st.cached_cookies with _ | d
    · simp [is_cookie_valid, hc] at hv
    · have hd : d ≠ [] := h d hc
      simp only [hc, Option.getD_some, Except.ok.injEq] at hok
      exact hok ▸ hd
  · rcases hl : login_and_get_cookies s env with ⟨r, ev⟩
    cases r with
    | ok d =>
      have hd : d ≠ [] := login_ok_ne_nil s env d (by rw [hl])
      rw [hl] at hok
      simp only [Except.ok.injEq] at hok
      exact hok ▸ hd
    | error e =>
      rw [hl] at hok
      simp at hok

/-- `request_attendance` preserves the cache invariant along every path. -/
theorem request_attendance_wf (s : Settings) (st : CacheState) (env : RunEnv)
    (d ty : String) (h : cacheWF st) :
    cacheWF (request_attendance s st env d ty).2.1 := by
  rcases h1 : get_cookies s st env.login1 env.t1 env.t1s false with ⟨r1, st1, ev1⟩
  have hst1 : cacheWF st1 := by
    have := get_cookies_wf s st env.login1 env.t1 env.t1s false h
    rw [h1] at this
    exact this
  cases r1 with
  | error e => rw [ra_fetch_error s st env d ty e st1 ev1 h1]; exact hst1
  | ok cd =>
    rcases h2 : call_attendance_api (build_endpoints s) cd d ty env.post1 with ⟨r2, evP1⟩
    cases r2 with
    | error e => rw [ra_post1_error s st env d ty cd st1 ev1 e evP1 h1 h2]; exact hst1
    | ok p =>
      rcases p with ⟨res, success⟩
      cases success with
      | true => rw [ra_post1_ok s st env d ty cd st1 ev1 res evP1 h1 h2]; exact hst1
      | false =>
        rcases h3 : get_cookies s (invalidate_cookie_cache st1) env.login2 env.t2 env.t2s true
          with ⟨r3, st3, ev3⟩
        have hst3 : cacheWF st3 := by
          have := get_cookies_wf s (invalidate_cookie_cache st1) env.login2 env.t2 env.t2s true
            (cacheWF_invalidate st1)
          rw [h3] at this
          exact this
        cases r3 with
        | error e =>
          rw [ra_retry_fetch_error s st env d ty cd st1 ev1 res evP1 e st3 ev3 h1 h2 h3]
          exact hst3
        | ok cd2 =>
          rcases h4 : call_attendance_api (build_endpoints s) cd2 d ty env.post2 with ⟨r4, evP2⟩
          cases r4 with
          | error e =>
            rw [ra_retry_post_error s st env d ty cd st1 ev1 res evP1 cd2 st3 ev3 e evP2 h1 h2 h3 h4]
            exact hst3
          | ok p2 =>
            rcases p2 with ⟨res2, f2⟩
            rw [ra_retry_post_ok s st env d ty cd st1 ev1 res evP1 cd2 st3 ev3 res2 f2 evP2 h1 h2 h3 h4]
            exact hst3

/-- A non-empty cached dict strictly younger than the TTL is valid. -/
theorem is_cookie_valid_of_lt (cs : Dict String) (aAt t : Int) (hcs : cs ≠ [])
    (h : t - aAt < 1800) : is_cookie_valid ⟨some cs, aAt⟩ t = true := by
  cases cs with
  | nil => exact absurd rfl hcs
  | cons x xs =>
    simp only [is_cookie_valid, COOKIE_CACHE_TTL, decide_eq_true_eq]
    omega

/-- Cache hit: a valid cached session is served unchanged, with no login
flow. -/
theorem get_cookies_hit (s : Settings) (cs : Dict String) (aAt : Int) (env : BrowserEnv)
    (nc ns : Int) (hv : is_cookie_valid ⟨some cs, aAt⟩ nc = true) :
    get_cookies s ⟨some cs, aAt⟩ env nc ns false
      = (.ok cs, ⟨some cs, aAt⟩, [Event.cookieFetch false]) := by
  simp [get_cookies, hv]

/-- Cold miss with a successful login: the login result is stored with the
fresh timestamp and returned. -/
theorem get_cookies_cold_ok (s : Settings) (st : CacheState) (raw : List (String × String))
    (nc ns : Int) (hcold : is_cookie_valid st nc = false)
    (huser : s.DOORAY_LOGIN_USERNAME ≠ "") (hpass : s.DOORAY_LOGIN_PASSWORD ≠ "")
    (hraw : raw ≠ []) :
    get_cookies s st (.ok raw) nc ns false
      = (.ok (cookiesToDict raw), ⟨some (cookiesToDict raw), ns⟩,
         [Event.cookieFetch false, Event.loginFlow, Event.browserLaunch]) := by
  simp [get_cookies, hcold, login_and_get_cookies, huser, hpass, hraw]

/-- Event counts contributed by one `_get_cookies` call. -/
theorem ev_of_get_cookies (s : Settings) (st : CacheState) (env : BrowserEnv)
    (nc ns : Int) (f : Bool) {r : Except PyExn (Dict String)} {st' : CacheState}
    {ev : List Event} (h : get_cookies s st env nc ns f = (r, st', ev)) :
    countPosts ev = 0 ∧ countInvalidates ev = 0 := by
  have h1 := countPosts_get_cookies s st env nc ns f
  have h2 := countInvalidates_get_cookies s st env nc ns f
  rw [h] at h1 h2
  exact ⟨h1, h2⟩

/-- Event counts contributed by one `_call_attendance_api` call. -/
theorem ev_of_call (endpoints : DoorayEndpoints) (cd : Dict String) (d ty : String)
    (env : PostEnv) {r : Except PyExn (Json × Bool)} {ev : List Event}
    (h : call_attendance_api endpoints cd d ty env = (r, ev)) :
    countPosts ev = 1 ∧ countInvalidates ev = 0 := by
  have h1 := countPosts_call endpoints cd d ty env
  have h2 := countInvalidates_call endpoints cd d ty env
  rw [h] at h1 h2
  exact ⟨h1, h2⟩

/-- A 401/403 response makes `_call_attendance_api` return the fixed error
dict with the success flag `False`, without parsing the body or annotating
anything. -/
theorem call_auth_failure (endpoints : DoorayEndpoints) (cd : Dict String) (d ty : String)
    (r : HttpResponse) (h : r.status_code = 401 ∨ r.status_code = 403) :
    call_attendance_api endpoints cd d ty (.response r)
      = (.ok (.obj [("error", .str "인증 실패")], false),
         [Event.httpPost (mkPostRequest endpoints cd d ty)]) := by
  rcases h with h | h <;> simp [call_attendance_api, mkPostRequest, h]

/-- `_get_cookies(force_refresh=True)` with a successful login stores and
returns the fresh cookies without consulting validity. -/
theorem get_cookies_force_ok (s : Settings) (st : CacheState) (raw : List (String × String))
    (nc ns : Int) (huser : s.DOORAY_LOGIN_USERNAME ≠ "")
    (hpass : s.DOORAY_LOGIN_PASSWORD ≠ "") (hraw : raw ≠ []) :
    get_cookies s st (.ok raw) nc ns true
      = (.ok (cookiesToDict raw), ⟨some (cookiesToDict raw), ns⟩,
         [Event.cookieFetch true, Event.loginFlow, Event.browserLaunch]) := by
  simp [get_cookies, login_and_get_cookies, huser, hpass, hraw]

/-- The trace of every `_get_cookies` call starts with its fetch event,
carrying the `force_refresh` flag it was invoked with. -/
theorem get_cookies_trace_head (s : Settings) (st : CacheState) (env : BrowserEnv)
    (nc ns : Int) (f : Bool) :
    ∃ tl, (get_cookies s st env nc ns f).2.2 = Event.cookieFetch f :: tl := by
  simp only [get_cookies]
  split_ifs
  · exact ⟨[], rfl⟩
  · rcases hl : login_and_get_cookies s env with ⟨r, ev⟩
    cases r <;> exact ⟨ev, rfl⟩

theorem countPosts_invalidate_ev : countPosts [Event.cacheInvalidate] = 0 := rfl

theorem countPosts_cons_invalidate (evs : List Event) :
    countPosts (Event.cacheInvalidate :: evs) = countPosts evs := by
  simp [countPosts]

theorem countInvalidates_cons_invalidate (evs : List Event) :
    countInvalidates (Event.cacheInvalidate :: evs) = countInvalidates evs + 1 := by
  simp [countInvalidates, Nat.add_comm]

theorem countInvalidates_invalidate_ev : countInvalidates [Event.cacheInvalidate] = 1 := rfl

theorem countPosts_post_ev (req : PostRequest) : countPosts [Event.httpPost req] = 1 := rfl

theorem countInvalidates_post_ev (req : PostRequest) :
    countInvalidates [Event.httpPost req] = 0 := rfl

theorem countPosts_nil : countPosts [] = 0 := rfl

theorem countInvalidates_nil : countInvalidates [] = 0 := rfl

theorem countPosts_cons_post (req : PostRequest) (evs : List Event) :
    countPosts (Event.httpPost req :: evs) = countPosts evs + 1 := by
  simp [countPosts, Nat.add_comm]

theorem countInvalidates_cons_post (req : PostRequest) (evs : List Event) :
    countInvalidates (Event.httpPost req :: evs) = countInvalidates evs := by
  simp [countInvalidates]

theorem countPosts_cons_fetch (f : Bool) (evs : List Event) :
    countPosts (Event.cookieFetch f :: evs) = countPosts evs := by
  simp [countPosts]

theorem countPosts_cons_login (evs : List Event) :
    countPosts (Event.loginFlow :: evs) = countPosts evs := by
  simp [countPosts]

theorem countPosts_cons_launch (evs : List Event) :
    countPosts (Event.browserLaunch :: evs) = countPosts evs := by
  simp [countPosts]

theorem countInvalidates_cons_fetch (f : Bool) (evs : List Event) :
    countInvalidates (Event.cookieFetch f :: evs) = countInvalidates evs := by
  simp [countInvalidates]

theorem countInvalidates_cons_login (evs : List Event) :
    countInvalidates (Event.loginFlow :: evs) = countInvalidates evs := by
  simp [countInvalidates]

theorem countInvalidates_cons_launch (evs : List Event) :
    countInvalidates (Event.browserLaunch :: evs) = countInvalidates evs := by
  simp [countInvalidates]

/-- `_call_attendance_api` under a raised `httpx.TimeoutException`. -/
theorem call_timeout (endpoints : DoorayEndpoints) (cd : Dict String) (d ty : String) :
    call_attendance_api endpoints cd d ty .timeout
      = (.error .httpxTimeout, [Event.httpPost (mkPostRequest endpoints cd d ty)]) := rfl

/-- `_call_attendance_api` under a raised `httpx.RequestError`. -/
theorem call_requestError (endpoints : DoorayEndpoints) (cd : Dict String) (d ty : String)
    (m : String) :
    call_attendance_api endpoints cd d ty (.requestError m)
      = (.error (.httpxRequestError m), [Event.httpPost (mkPostRequest endpoints cd d ty)]) := rfl

/-- A response whose status is not 401/403 never comes back with the
success flag `False`: only an auth failure triggers the retry branch. -/
theorem call_non_auth_not_false (endpoints : DoorayEndpoints) (cd : Dict String)
    (d ty : String) (r : HttpResponse)
    (h : ¬(r.status_code = 401 ∨ r.status_code = 403)) (res : Json) :
    (call_attendance_api endpoints cd d ty (.response r)).1 ≠ .ok (res, false) := by
  simp only [call_attendance_api, if_neg h]
  split_ifs
  · split <;> simp
  · simp

/-- Whatever the environment does, a `request_attendance` run issues at
most two HTTP POSTs: there is at most one retry per request. -/
theorem countPosts_le_two (s : Settings) (st : CacheState) (env : RunEnv) (d ty : String) :
    countPosts (request_attendance s st env d ty).2.2 ≤ 2 := by
  rcases h1 : get_cookies s st env.login1 env.t1 env.t1s false with ⟨r1, st1, ev1⟩
  have hev1 := (ev_of_get_cookies s st env.login1 env.t1 env.t1s false h1).1
  cases r1 with
  | error e => simp [ra_fetch_error s st env d ty e st1 ev1 h1, hev1]
  | ok cd =>
    rcases h2 : call_attendance_api (build_endpoints s) cd d ty env.post1 with ⟨r2, evP1⟩
    have hevP1 := (ev_of_call (build_endpoints s) cd d ty env.post1 h2).1
    cases r2 with
    | error e =>
      simp [ra_post1_error s st env d ty cd st1 ev1 e evP1 h1 h2, countPosts_append, hev1, hevP1]
    | ok p =>
      rcases p with ⟨res, success⟩
      cases success with
      | true =>
        simp [ra_post1_ok s st env d ty cd st1 ev1 res evP1 h1 h2, countPosts_append, hev1, hevP1]
      | false =>
        rcases h3 : get_cookies s (invalidate_cookie_cache st1) env.login2 env.t2 env.t2s true
          with ⟨r3, st3, ev3⟩
        have hev3 := (ev_of_get_cookies s (invalidate_cookie_cache st1) env.login2 env.t2
          env.t2s true h3).1
        cases r3 with
        | error e =>
          simp [ra_retry_fetch_error s st env d ty cd st1 ev1 res evP1 e st3 ev3 h1 h2 h3,
            countPosts_append, hev1, hevP1, hev3, countPosts_invalidate_ev, countPosts_cons_invalidate]
        | ok cd2 =>
          rcases h4 : call_attendance_api (build_endpoints s) cd2 d ty env.post2 with ⟨r4, evP2⟩
          have hevP2 := (ev_of_call (build_endpoints s) cd2 d ty env.post2 h4).1
          cases r4 with
          | error e =>
            simp [ra_retry_post_error s st env d ty cd st1 ev1 res evP1 cd2 st3 ev3 e evP2
              h1 h2 h3 h4, countPosts_append, hev1, hevP1, hev3, hevP2, countPosts_invalidate_ev, countPosts_cons_invalidate]
          | ok p2 =>
            rcases p2 with ⟨res2, f2⟩
            simp [ra_retry_post_ok s st env d ty cd st1 ev1 res evP1 cd2 st3 ev3 res2 f2 evP2
              h1 h2 h3 h4, countPosts_append, hev1, hevP1, hev3, hevP2, countPosts_invalidate_ev, countPosts_cons_invalidate]

/-! ## Claims -/

/-- C3: a cached session is valid iff the time elapsed since it was stored
is strictly below the TTL of 1800 seconds and it has not been invalidated
since acquisition; a `_get_cookies(force_refresh=False)` call on a session
younger than 1800s performs zero login flows and returns the cached
cookies unchanged, and one on a session at least 1800s old performs
exactly one login flow. -/
theorem cached_session_ttl_validity (s : Settings) (cs : Dict String)
    (acquiredAt now store : Int) (env : BrowserEnv) (hcs : cs ≠ []) :
    (is_cookie_valid ⟨some cs, acquiredAt⟩ now = true ↔ now - acquiredAt < 1800) ∧
    (∀ (t : Int) (st : CacheState), is_cookie_valid (invalidate_cookie_cache st) t = false) ∧
    (now - acquiredAt < 1800 →
      get_cookies s ⟨some cs, acquiredAt⟩ env now store false
        = (.ok cs, ⟨some cs, acquiredAt⟩, [.cookieFetch false])) ∧
    (1800 ≤ now - acquiredAt →
      countLoginFlows (get_cookies s ⟨some cs, acquiredAt⟩ env now store false).2.2 = 1) := by
  obtain ⟨c, cs', rfl⟩ : ∃ c cs', cs = c :: cs' := by
    cases cs with
    | nil => exact absurd rfl hcs
    | cons c cs' => exact ⟨c, cs', rfl⟩
  have hvalid : is_cookie_valid ⟨some (c :: cs'), acquiredAt⟩ now
      = decide (now - acquiredAt < 1800) := by
    simp [is_cookie_valid, COOKIE_CACHE_TTL]
  refine ⟨?_, ?_, ?_, ?_⟩
  · rw [hvalid]
    exact decide_eq_true_iff
  · intro t st
    rfl
  · intro h
    simp [get_cookies, hvalid, h]
  · intro h
    have hne : ¬ (now - acquiredAt < 1800) := not_lt.mpr h
    simp only [get_cookies, hvalid, hne, decide_False, Bool.not_false, Bool.and_false,
      Bool.false_eq_true, if_false]
    rcases hl : login_and_get_cookies s env with ⟨r, ev⟩
    have hev : ev = [Event.loginFlow, Event.browserLaunch] := by
      have := login_events s env
      rw [hl] at this
      exact this
    cases r <;> simp [hev, countLoginFlows]

/-- C1: when the first POST returns 401/403, `request_attendance`
invalidates the cookie cache, then fetches cookies with
`force_refresh=True`, then repeats the POST exactly once — the
invalidation event precedes the forced fetch, which precedes the second
POST; at most one retry (two POSTs) happens whatever the environment
does; and when the second POST also returns 401/403 the call returns the
auth-failure error dict as a value, through the normal return path. -/
theorem auth_failure_retry_once (s : Settings) (st : CacheState) (env : RunEnv)
    (d ty : String) (cd cd2 : Dict String) (st1 st3 : CacheState) (ev1 ev3 : List Event)
    (r1 r2 : HttpResponse)
    (h1 : get_cookies s st env.login1 env.t1 env.t1s false = (.ok cd, st1, ev1))
    (hp1 : env.post1 = .response r1)
    (hauth1 : r1.status_code = 401 ∨ r1.status_code = 403)
    (h3 : get_cookies s (invalidate_cookie_cache st1) env.login2 env.t2 env.t2s true
      = (.ok cd2, st3, ev3))
    (hp2 : env.post2 = .response r2)
    (hauth2 : r2.status_code = 401 ∨ r2.status_code = 403) :
    request_attendance s st env d ty
      = (.obj [("error", .str "인증 실패")], st3,
         ev1 ++ [Event.httpPost (mkPostRequest (build_endpoints s) cd d ty)]
             ++ [Event.cacheInvalidate] ++ ev3
             ++ [Event.httpPost (mkPostRequest (build_endpoints s) cd2 d ty)]) ∧
    (∃ tl, ev3 = Event.cookieFetch true :: tl) ∧
    countInvalidates (request_attendance s st env d ty).2.2 = 1 ∧
    countPosts (request_attendance s st env d ty).2.2 = 2 ∧
    (∀ env' : RunEnv, countPosts (request_attendance s st env' d ty).2.2 ≤ 2) := by
  have h2 : call_attendance_api (build_endpoints s) cd d ty env.post1
      = (.ok (.obj [("error", .str "인증 실패")], false),
         [Event.httpPost (mkPostRequest (build_endpoints s) cd d ty)]) := by
    rw [hp1]
    exact call_auth_failure (build_endpoints s) cd d ty r1 hauth1
  have h4 : call_attendance_api (build_endpoints s) cd2 d ty env.post2
      = (.ok (.obj [("error", .str "인증 실패")], false),
         [Event.httpPost (mkPostRequest (build_endpoints s) cd2 d ty)]) := by
    rw [hp2]
    exact call_auth_failure (build_endpoints s) cd2 d ty r2 hauth2
  have hmain := ra_retry_post_ok s st env d ty cd st1 ev1 (.obj [("error", .str "인증 실패")])
    [Event.httpPost (mkPostRequest (build_endpoints s) cd d ty)] cd2 st3 ev3
    (.obj [("error", .str "인증 실패")]) false
    [Event.httpPost (mkPostRequest (build_endpoints s) cd2 d ty)] h1 h2 h3 h4
  have hev1 := ev_of_get_cookies s st env.login1 env.t1 env.t1s false h1
  have hev3 := ev_of_get_cookies s (invalidate_cookie_cache st1) env.login2 env.t2 env.t2s true h3
  have hhead := get_cookies_trace_head s (invalidate_cookie_cache st1) env.login2 env.t2
    env.t2s true
  rw [h3] at hhead
  refine ⟨hmain, hhead, ?_, ?_, fun env' => countPosts_le_two s st env' d ty⟩
  · rw [hmain]
    simp [countInvalidates_append, hev1.2, hev3.2, countInvalidates_invalidate_ev,
      countInvalidates_post_ev, countInvalidates_cons_post, countInvalidates_cons_invalidate,
      countInvalidates_nil]
  · rw [hmain]
    simp [countPosts_append, hev1.1, hev3.1, countPosts_invalidate_ev, countPosts_post_ev,
      countPosts_cons_post, countPosts_cons_invalidate, countPosts_nil]

/-- C1 witness: both POSTs come back 401 against a cold cache. -/
theorem auth_failure_retry_once_witness :
    (request_attendance ⟨"u", "p", "uniai"⟩ ⟨none, 0⟩
      ⟨.ok [("a", "1")], .ok [("b", "2")],
       .response ⟨401, some (.obj []), "x"⟩, .response ⟨401, some (.obj []), "x"⟩,
       0, 1, 2, 3⟩ "2026-01-05" "ENTER").1
      = .obj [("error", .str "인증 실패")] ∧
    countInvalidates (request_attendance ⟨"u", "p", "uniai"⟩ ⟨none, 0⟩
      ⟨.ok [("a", "1")], .ok [("b", "2")],
       .response ⟨401, some (.obj []), "x"⟩, .response ⟨401, some (.obj []), "x"⟩,
       0, 1, 2, 3⟩ "2026-01-05" "ENTER").2.2 = 1 ∧
    countPosts (request_attendance ⟨"u", "p", "uniai"⟩ ⟨none, 0⟩
      ⟨.ok [("a", "1")], .ok [("b", "2")],
       .response ⟨401, some (.obj []), "x"⟩, .response ⟨401, some (.obj []), "x"⟩,
       0, 1, 2, 3⟩ "2026-01-05" "ENTER").2.2 = 2 := by
  have h := auth_failure_retry_once ⟨"u", "p", "uniai"⟩ ⟨none, 0⟩
    ⟨.ok [("a", "1")], .ok [("b", "2")],
     .response ⟨401, some (.obj []), "x"⟩, .response ⟨401, some (.obj []), "x"⟩,
     0, 1, 2, 3⟩ "2026-01-05" "ENTER"
    (cookiesToDict [("a", "1")]) (cookiesToDict [("b", "2")])
    ⟨some (cookiesToDict [("a", "1")]), 1⟩ ⟨some (cookiesToDict [("b", "2")]), 3⟩
    [Event.cookieFetch false, Event.loginFlow, Event.browserLaunch]
    [Event.cookieFetch true, Event.loginFlow, Event.browserLaunch]
    ⟨401, some (.obj []), "x"⟩ ⟨401, some (.obj []), "x"⟩
    rfl rfl (Or.inl rfl) rfl rfl (Or.inl rfl)
  exact ⟨by rw [h.1], h.2.2.1, h.2.2.2.1⟩

/-- C10: when the retried POST also returns 401/403, the cache is not
invalidated a second time — exactly one invalidation happened, before the
retry; the freshly refreshed cookies that the server just rejected remain
stored (with the retry's acquisition timestamp), and while younger than
the TTL they keep being served to subsequent `_get_cookies` calls without
a login flow. -/
theorem second_auth_failure_keeps_cookies (s : Settings) (st : CacheState) (env : RunEnv)
    (d ty : String) (cd : Dict String) (st1 : CacheState) (ev1 : List Event)
    (r1 r2 : HttpResponse) (raw2 : List (String × String))
    (h1 : get_cookies s st env.login1 env.t1 env.t1s false = (.ok cd, st1, ev1))
    (hp1 : env.post1 = .response r1)
    (hauth1 : r1.status_code = 401 ∨ r1.status_code = 403)
    (hlogin2 : env.login2 = .ok raw2) (hraw2 : raw2 ≠ [])
    (huser : s.DOORAY_LOGIN_USERNAME ≠ "") (hpass : s.DOORAY_LOGIN_PASSWORD ≠ "")
    (hp2 : env.post2 = .response r2)
    (hauth2 : r2.status_code = 401 ∨ r2.status_code = 403) :
    (request_attendance s st env d ty).2.1 = ⟨some (cookiesToDict raw2), env.t2s⟩ ∧
    countInvalidates (request_attendance s st env d ty).2.2 = 1 ∧
    (∀ (env' : BrowserEnv) (now ns : Int), now - env.t2s < 1800 →
      get_cookies s (request_attendance s st env d ty).2.1 env' now ns false
        = (.ok (cookiesToDict raw2), (request_attendance s st env d ty).2.1,
           [Event.cookieFetch false])) := by
  have h2 : call_attendance_api (build_endpoints s) cd d ty env.post1
      = (.ok (.obj [("error", .str "인증 실패")], false),
         [Event.httpPost (mkPostRequest (build_endpoints s) cd d ty)]) := by
    rw [hp1]
    exact call_auth_failure (build_endpoints s) cd d ty r1 hauth1
  have h3 : get_cookies s (invalidate_cookie_cache st1) env.login2 env.t2 env.t2s true
      = (.ok (cookiesToDict raw2), ⟨some (cookiesToDict raw2), env.t2s⟩,
         [Event.cookieFetch true, Event.loginFlow, Event.browserLaunch]) := by
    rw [hlogin2]
    exact get_cookies_force_ok s (invalidate_cookie_cache st1) raw2 env.t2 env.t2s
      huser hpass hraw2
  have h4 : call_attendance_api (build_endpoints s) (cookiesToDict raw2) d ty env.post2
      = (.ok (.obj [("error", .str "인증 실패")], false),
         [Event.httpPost (mkPostRequest (build_endpoints s) (cookiesToDict raw2) d ty)]) := by
    rw [hp2]
    exact call_auth_failure (build_endpoints s) (cookiesToDict raw2) d ty r2 hauth2
  have hmain := ra_retry_post_ok s st env d ty cd st1 ev1 (.obj [("error", .str "인증 실패")])
    [Event.httpPost (mkPostRequest (build_endpoints s) cd d ty)] (cookiesToDict raw2)
    ⟨some (cookiesToDict raw2), env.t2s⟩
    [Event.cookieFetch true, Event.loginFlow, Event.browserLaunch]
    (.obj [("error", .str "인증 실패")]) false
    [Event.httpPost (mkPostRequest (build_endpoints s) (cookiesToDict raw2) d ty)] h1 h2 h3 h4
  have hev1 := ev_of_get_cookies s st env.login1 env.t1 env.t1s false h1
  refine ⟨by rw [hmain], ?_, ?_⟩
  · rw [hmain]
    simp [countInvalidates_append, hev1.2, countInvalidates_invalidate_ev,
      countInvalidates_post_ev, countInvalidates_cons_post, countInvalidates_cons_invalidate,
      countInvalidates_cons_fetch, countInvalidates_cons_login, countInvalidates_cons_launch,
      countInvalidates_nil]
  · intro env' now ns hlt
    rw [hmain]
    exact get_cookies_hit s (cookiesToDict raw2) env.t2s env' now ns
      (is_cookie_valid_of_lt (cookiesToDict raw2) env.t2s now
        (cookiesToDict_ne_nil raw2 hraw2) hlt)

/-- C10 witness: both POSTs 401; the refreshed cookies stay cached and are
served afterwards. -/
theorem second_auth_failure_keeps_cookies_witness :
    (request_attendance ⟨"u", "p", "uniai"⟩ ⟨none, 0⟩
      ⟨.ok [("a", "1")], .ok [("b", "2")],
       .response ⟨403, some (.obj []), "x"⟩, .response ⟨403, some (.obj []), "x"⟩,
       0, 1, 2, 3⟩ "2026-01-05" "LEAVE").2.1
      = ⟨some (cookiesToDict [("b", "2")]), 3⟩ ∧
    countInvalidates (request_attendance ⟨"u", "p", "uniai"⟩ ⟨none, 0⟩
      ⟨.ok [("a", "1")], .ok [("b", "2")],
       .response ⟨403, some (.obj []), "x"⟩, .response ⟨403, some (.obj []), "x"⟩,
       0, 1, 2, 3⟩ "2026-01-05" "LEAVE").2.2 = 1 ∧
    get_cookies ⟨"u", "p", "uniai"⟩ (request_attendance ⟨"u", "p", "uniai"⟩ ⟨none, 0⟩
      ⟨.ok [("a", "1")], .ok [("b", "2")],
       .response ⟨403, some (.obj []), "x"⟩, .response ⟨403, some (.obj []), "x"⟩,
       0, 1, 2, 3⟩ "2026-01-05" "LEAVE").2.1 (.uiTimeout "t") 100 101 false
      = (.ok (cookiesToDict [("b", "2")]),
         (request_attendance ⟨"u", "p", "uniai"⟩ ⟨none, 0⟩
           ⟨.ok [("a", "1")], .ok [("b", "2")],
            .response ⟨403, some (.obj []), "x"⟩, .response ⟨403, some (.obj []), "x"⟩,
            0, 1, 2, 3⟩ "2026-01-05" "LEAVE").2.1, [Event.cookieFetch false]) := by
  have h := second_auth_failure_keeps_cookies ⟨"u", "p", "uniai"⟩ ⟨none, 0⟩
    ⟨.ok [("a", "1")], .ok [("b", "2")],
     .response ⟨403, some (.obj []), "x"⟩, .response ⟨403, some (.obj []), "x"⟩,
     0, 1, 2, 3⟩ "2026-01-05" "LEAVE"
    (cookiesToDict [("a", "1")]) ⟨some (cookiesToDict [("a", "1")]), 1⟩
    [Event.cookieFetch false, Event.loginFlow, Event.browserLaunch]
    ⟨403, some (.obj []), "x"⟩ ⟨403, some (.obj []), "x"⟩ [("b", "2")]
    rfl rfl (Or.inr rfl) rfl (by simp) (by simp) (by simp) rfl (Or.inr rfl)
  exact ⟨h.1, h.2.1, h.2.2 (.uiTimeout "t") 100 101 (by decide)⟩

/-- C4: `request_attendance` never raises to its caller — every failure
mode below it (login failure of any kind, HTTP timeout, connection error)
is converted into a dict carrying an `"error"` entry, and network-level
failures and non-auth responses never trigger the invalidate+retry path:
only a 401/403 response does. -/
theorem failures_become_error_results (s : Settings) (st : CacheState) (env : RunEnv)
    (d ty : String) :
    (∀ e : PyExn, ∃ m : String, exnToResult e = .obj [("error", .str m)]) ∧
    (∀ (e : PyExn) (st1 : CacheState) (ev1 : List Event),
      get_cookies s st env.login1 env.t1 env.t1s false = (.error e, st1, ev1) →
      request_attendance s st env d ty = (exnToResult e, st1, ev1) ∧
      countPosts (request_attendance s st env d ty).2.2 = 0) ∧
    (∀ (cd : Dict String) (st1 : CacheState) (ev1 : List Event),
      get_cookies s st env.login1 env.t1 env.t1s false = (.ok cd, st1, ev1) →
      env.post1 = .timeout →
      request_attendance s st env d ty
        = (.obj [("error", .str "타임아웃")], st1,
           ev1 ++ [Event.httpPost (mkPostRequest (build_endpoints s) cd d ty)]) ∧
      countInvalidates (request_attendance s st env d ty).2.2 = 0 ∧
      countPosts (request_attendance s st env d ty).2.2 = 1) ∧
    (∀ (cd : Dict String) (st1 : CacheState) (ev1 : List Event) (m : String),
      get_cookies s st env.login1 env.t1 env.t1s false = (.ok cd, st1, ev1) →
      env.post1 = .requestError m →
      request_attendance s st env d ty
        = (.obj [("error", .str m)], st1,
           ev1 ++ [Event.httpPost (mkPostRequest (build_endpoints s) cd d ty)]) ∧
      countInvalidates (request_attendance s st env d ty).2.2 = 0) ∧
    (∀ (cd : Dict String) (st1 : CacheState) (ev1 : List Event) (r : HttpResponse),
      get_cookies s st env.login1 env.t1 env.t1s false = (.ok cd, st1, ev1) →
      env.post1 = .response r →
      ¬(r.status_code = 401 ∨ r.status_code = 403) →
      countInvalidates (request_attendance s st env d ty).2.2 = 0) := by
  refine ⟨?_, ?_, ?_, ?_, ?_⟩
  · intro e
    cases e with
    | httpxTimeout => exact ⟨"타임아웃", rfl⟩
    | httpxRequestError m => exact ⟨m, rfl⟩
    | otherExn m => exact ⟨m, rfl⟩
  · intro e st1 ev1 h1
    have hmain := ra_fetch_error s st env d ty e st1 ev1 h1
    have hev1 := ev_of_get_cookies s st env.login1 env.t1 env.t1s false h1
    exact ⟨hmain, by rw [hmain]; exact hev1.1⟩
  · intro cd st1 ev1 h1 hp1
    have h2 : call_attendance_api (build_endpoints s) cd d ty env.post1
        = (.error .httpxTimeout, [Event.httpPost (mkPostRequest (build_endpoints s) cd d ty)]) := by
      rw [hp1]
      exact call_timeout (build_endpoints s) cd d ty
    have hmain := ra_post1_error s st env d ty cd st1 ev1 .httpxTimeout
      [Event.httpPost (mkPostRequest (build_endpoints s) cd d ty)] h1 h2
    have hev1 := ev_of_get_cookies s st env.login1 env.t1 env.t1s false h1
    refine ⟨hmain, ?_, ?_⟩
    · rw [hmain]
      simp [countInvalidates_append, hev1.2, countInvalidates_post_ev,
        countInvalidates_cons_post, countInvalidates_nil]
    · rw [hmain]
      simp [countPosts_append, hev1.1, countPosts_post_ev, countPosts_cons_post, countPosts_nil]
  · intro cd st1 ev1 m h1 hp1
    have h2 : call_attendance_api (build_endpoints s) cd d ty env.post1
        = (.error (.httpxRequestError m),
           [Event.httpPost (mkPostRequest (build_endpoints s) cd d ty)]) := by
      rw [hp1]
      exact call_requestError (build_endpoints s) cd d ty m
    have hmain := ra_post1_error s st env d ty cd st1 ev1 (.httpxRequestError m)
      [Event.httpPost (mkPostRequest (build_endpoints s) cd d ty)] h1 h2
    have hev1 := ev_of_get_cookies s st env.login1 env.t1 env.t1s false h1
    refine ⟨hmain, ?_⟩
    rw [hmain]
    simp [countInvalidates_append, hev1.2, countInvalidates_post_ev,
      countInvalidates_cons_post, countInvalidates_nil]
  · intro cd st1 ev1 r h1 hp1 hna
    have hev1 := ev_of_get_cookies s st env.login1 env.t1 env.t1s false h1
    rcases h2 : call_attendance_api (build_endpoints s) cd d ty env.post1 with ⟨r2, evP1⟩
    have hevP1 := ev_of_call (build_endpoints s) cd d ty env.post1 h2
    cases r2 with
    | error e =>
      have hmain := ra_post1_error s st env d ty cd st1 ev1 e evP1 h1 h2
      rw [hmain]
      simp [countInvalidates_append, hev1.2, hevP1.2]
    | ok p =>
      rcases p with ⟨res, success⟩
      cases success with
      | false =>
        exfalso
        have := call_non_auth_not_false (build_endpoints s) cd d ty r hna res
        rw [hp1] at h2
        rw [h2] at this
        exact this rfl
      | true =>
        have hmain := ra_post1_ok s st env d ty cd st1 ev1 res evP1 h1 h2
        rw [hmain]
        simp [countInvalidates_append, hev1.2, hevP1.2]

/-- C4 witness: a timeout on the first POST yields the timeout error dict
with no retry. -/
theorem failures_become_error_results_witness :
    (request_attendance ⟨"u", "p", "uniai"⟩ ⟨none, 0⟩
      ⟨.ok [("a", "1")], .ok [("b", "2")], .timeout, .timeout, 0, 1, 2, 3⟩
      "2026-01-05" "ENTER").1 = .obj [("error", .str "타임아웃")] ∧
    countInvalidates (request_attendance ⟨"u", "p", "uniai"⟩ ⟨none, 0⟩
      ⟨.ok [("a", "1")], .ok [("b", "2")], .timeout, .timeout, 0, 1, 2, 3⟩
      "2026-01-05" "ENTER").2.2 = 0 ∧
    countPosts (request_attendance ⟨"u", "p", "uniai"⟩ ⟨none, 0⟩
      ⟨.ok [("a", "1")], .ok [("b", "2")], .timeout, .timeout, 0, 1, 2, 3⟩
      "2026-01-05" "ENTER").2.2 = 1 := by
  have h := (failures_become_error_results ⟨"u", "p", "uniai"⟩ ⟨none, 0⟩
    ⟨.ok [("a", "1")], .ok [("b", "2")], .timeout, .timeout, 0, 1, 2, 3⟩
    "2026-01-05" "ENTER").2.2.1 (cookiesToDict [("a", "1")])
    ⟨some (cookiesToDict [("a", "1")]), 1⟩
    [Event.cookieFetch false, Event.loginFlow, Event.browserLaunch] rfl rfl
  exact ⟨by rw [h.1], h.2.1, h.2.2⟩

/-- C9: invariant kept by every cache operation — whenever the
cached-cookies slot is non-empty it holds a non-empty cookie mapping: the
login flow errors instead of returning an empty dict, validity treats a
`None` or empty mapping as invalid whatever its timestamp, every cache
operation preserves the invariant, and a cookie dict served by
`_get_cookies` is never empty. -/
theorem cache_nonempty_invariant :
    (∀ (s : Settings) (env : BrowserEnv) (d : Dict String),
      (login_and_get_cookies s env).1 = .ok d → d ≠ []) ∧
    (∀ (t ts : Int),
      is_cookie_valid ⟨none, ts⟩ t = false ∧ is_cookie_valid ⟨some [], ts⟩ t = false) ∧
    (∀ (s : Settings) (st : CacheState) (env : BrowserEnv) (nc ns : Int) (f : Bool),
      cacheWF st → cacheWF (get_cookies s st env nc ns f).2.1) ∧
    (∀ st : CacheState, cacheWF (invalidate_cookie_cache st)) ∧
    (∀ (s : Settings) (st : CacheState) (env : RunEnv) (d ty : String),
      cacheWF st → cacheWF (request_attendance s st env d ty).2.1) ∧
    (∀ (s : Settings) (st : CacheState) (env : BrowserEnv) (nc ns : Int) (f : Bool)
      (cs : Dict String),
      cacheWF st → (get_cookies s st env nc ns f).1 = .ok cs → cs ≠ []) := by
  refine ⟨login_ok_ne_nil, ?_, get_cookies_wf, cacheWF_invalidate, request_attendance_wf,
    get_cookies_ok_ne_nil⟩
  intro t ts
  exact ⟨rfl, rfl⟩

/-- C9 witness: a concrete well-formed cache, served without emptying. -/
theorem cache_nonempty_invariant_witness :
    (is_cookie_valid ⟨none, 0⟩ 50 = false ∧ is_cookie_valid ⟨some [], 0⟩ 50 = false) ∧
    ([("k", "v")] : Dict String) ≠ [] := by
  refine ⟨cache_nonempty_invariant.2.1 50 0, ?_⟩
  exact cache_nonempty_invariant.2.2.2.2.2 ⟨"u", "p", "uniai"⟩ ⟨some [("k", "v")], 0⟩
    (.ok [("S", "x")]) 100 101 false [("k", "v")]
    (by intro cs h; simp only [Option.some.injEq] at h; simp [← h]) rfl

/-- A burst executed against a warm cache: every serialized caller re-checks
validity under the lock, hits the cache, and returns the shared cookies;
no login flow runs and the cache is left unchanged. -/
theorem runBurst_warm (s : Settings) (cs : Dict String) (aAt : Int)
    (calls : List BurstCall) (hcs : cs ≠ [])
    (hall : ∀ c ∈ calls, c.tCheck - aAt < 1800) :
    runBurst s calls ⟨some cs, aAt⟩
      = (⟨some cs, aAt⟩, calls.map (fun _ => Except.ok cs),
         calls.map (fun _ => Event.cookieFetch false)) := by
  induction calls with
  | nil => rfl
  | cons c rest ih =>
    have hv : is_cookie_valid ⟨some cs, aAt⟩ c.tCheck = true :=
      is_cookie_valid_of_lt cs aAt c.tCheck hcs (hall c (List.mem_cons_self c rest))
    have hrest : ∀ c' ∈ rest, c'.tCheck - aAt < 1800 :=
      fun c' hc' => hall c' (List.mem_cons_of_mem c hc')
    simp [runBurst, get_cookies_hit s cs aAt c.env c.tCheck c.tStore hv, ih hrest]

/-- C2: for a burst of N concurrent `_get_cookies(force_refresh=False)`
calls against a cold or expired cache — serialized by `_cookie_lock` into
an arbitrary grant order, the first caller's login succeeding and every
later caller re-checking within the TTL of the store — exactly one login
flow executes and all N callers receive the cookies produced by that one
flow. -/
theorem single_flight_burst (s : Settings) (st : CacheState)
    (c0 : BurstCall) (rest : List BurstCall) (raw : List (String × String))
    (hcold : is_cookie_valid st c0.tCheck = false)
    (huser : s.DOORAY_LOGIN_USERNAME ≠ "") (hpass : s.DOORAY_LOGIN_PASSWORD ≠ "")
    (henv : c0.env = .ok raw) (hraw : raw ≠ [])
    (hrest : ∀ c ∈ rest, c.tCheck - c0.tStore < 1800) :
    countLoginFlows (runBurst s (c0 :: rest) st).2.2 = 1 ∧
    (runBurst s (c0 :: rest) st).2.1
      = (c0 :: rest).map (fun _ => Except.ok (cookiesToDict raw)) := by
  have h0 : get_cookies s st c0.env c0.tCheck c0.tStore false
      = (.ok (cookiesToDict raw), ⟨some (cookiesToDict raw), c0.tStore⟩,
         [Event.cookieFetch false, Event.loginFlow, Event.browserLaunch]) := by
    rw [henv]
    exact get_cookies_cold_ok s st raw c0.tCheck c0.tStore hcold huser hpass hraw
  have hwarm := runBurst_warm s (cookiesToDict raw) c0.tStore rest
    (cookiesToDict_ne_nil raw hraw) hrest
  constructor
  · simp [runBurst, h0, hwarm, countLoginFlows_append, countLoginFlows]
  · simp [runBurst, h0, hwarm]

/-- C2 witness: a cold cache, a three-caller burst, one login flow. -/
theorem single_flight_burst_witness :
    countLoginFlows (runBurst ⟨"u", "p", "uniai"⟩
      [⟨.ok [("S", "v")], 0, 5⟩, ⟨.ok [("S", "w")], 6, 7⟩, ⟨.uiTimeout "t", 8, 9⟩]
      ⟨none, 0⟩).2.2 = 1 ∧
    (runBurst ⟨"u", "p", "uniai"⟩
      [⟨.ok [("S", "v")], 0, 5⟩, ⟨.ok [("S", "w")], 6, 7⟩, ⟨.uiTimeout "t", 8, 9⟩]
      ⟨none, 0⟩).2.1
      = [.ok (cookiesToDict [("S", "v")]), .ok (cookiesToDict [("S", "v")]),
         .ok (cookiesToDict [("S", "v")])] := by
  have h := single_flight_burst ⟨"u", "p", "uniai"⟩ ⟨none, 0⟩
    ⟨.ok [("S", "v")], 0, 5⟩ [⟨.ok [("S", "w")], 6, 7⟩, ⟨.uiTimeout "t", 8, 9⟩]
    [("S", "v")] rfl (by simp) (by simp) rfl (by simp)
    (by intro c hc; fin_cases hc <;> decide)
  exact ⟨h.1, h.2⟩

/-- C3 witness: concrete valid and expired sessions. -/
theorem cached_session_ttl_validity_witness :
    (is_cookie_valid ⟨some [("SESSION", "abc")], 0⟩ 100 = true ↔ (100 : Int) - 0 < 1800) ∧
    (get_cookies ⟨"u", "p", "uniai"⟩ ⟨some [("SESSION", "abc")], 0⟩ (.ok [("S", "x")]) 100 101 false
      = (.ok [("SESSION", "abc")], ⟨some [("SESSION", "abc")], 0⟩, [.cookieFetch false])) ∧
    countLoginFlows
      (get_cookies ⟨"u", "p", "uniai"⟩ ⟨some [("SESSION", "abc")], 0⟩ (.ok [("S", "x")]) 2000 2001 false).2.2 = 1 := by
  refine ⟨?_, ?_, ?_⟩
  · exact (cached_session_ttl_validity ⟨"u", "p", "uniai"⟩ [("SESSION", "abc")] 0 100 101
      (.ok [("S", "x")]) (by simp)).1
  · exact (cached_session_ttl_validity ⟨"u", "p", "uniai"⟩ [("SESSION", "abc")] 0 100 101
      (.ok [("S", "x")]) (by simp)).2.2.1 (by decide)
  · exact (cached_session_ttl_validity ⟨"u", "p", "uniai"⟩ [("SESSION", "abc")] 0 2000 2001
      (.ok [("S", "x")]) (by simp)).2.2.2 (by decide)

/-- Setting one dict key leaves every other key's lookup unchanged. -/
theorem dictLookup_dictSet_ne {α : Type} (d : Dict α) (k k' : String) (v : α)
    (h : k ≠ k') : dictLookup (dictSet d k' v) k = dictLookup d k := by
  induction d with
  | nil => simp [dictSet, dictLookup, h, Ne.symm h]
  | cons hd tl ih =>
    rcases hd with ⟨hk, hv⟩
    simp only [dictSet]
    by_cases he : hk = k'
    · subst he
      simp [dictLookup, h, Ne.symm h]
    · simp only [if_neg he, dictLookup]
      by_cases he2 : hk = k
      · simp [he2]
      · simp [he2, ih]

/-- C5 counterexample: with an empty username and a cold cache the call
does fail with the configuration error as a result and performs zero HTTP
POSTs, but the number of browser launches is not zero — the credential
check happens inside the browser flow, after the browser has started. -/
theorem config_error_counterexample :
    (request_attendance ⟨"", "p", "uniai"⟩ ⟨none, 0⟩
      ⟨.ok [("S", "x")], .ok [("S", "y")], .timeout, .timeout, 0, 1, 2, 3⟩
      "2026-01-05" "ENTER").1
      = .obj [("error",
          .str "DOORAY_LOGIN_USERNAME 또는 DOORAY_LOGIN_PASSWORD가 설정되지 않았습니다.")] ∧
    countPosts (request_attendance ⟨"", "p", "uniai"⟩ ⟨none, 0⟩
      ⟨.ok [("S", "x")], .ok [("S", "y")], .timeout, .timeout, 0, 1, 2, 3⟩
      "2026-01-05" "ENTER").2.2 = 0 ∧
    countBrowserLaunches (request_attendance ⟨"", "p", "uniai"⟩ ⟨none, 0⟩
      ⟨.ok [("S", "x")], .ok [("S", "y")], .timeout, .timeout, 0, 1, 2, 3⟩
      "2026-01-05" "ENTER").2.2 ≠ 0 := by
  refine ⟨rfl, rfl, ?_⟩
  have h1 : countBrowserLaunches (request_attendance ⟨"", "p", "uniai"⟩ ⟨none, 0⟩
      ⟨.ok [("S", "x")], .ok [("S", "y")], .timeout, .timeout, 0, 1, 2, 3⟩
      "2026-01-05" "ENTER").2.2 = 1 := rfl
  rw [h1]
  exact one_ne_zero

/-- C5 (amended): with a missing username or password and a cold cache,
`request_attendance` fails with the configuration error converted into an
error result, performing zero HTTP POSTs to the attendance endpoint — but
the missing-credential check sits inside the login flow, after the
browser has launched and the login UI has been driven: exactly one
browser launch occurs before the error surfaces. -/
theorem config_error_after_browser_launch (s : Settings) (st : CacheState) (env : RunEnv)
    (d ty : String) (raw : List (String × String))
    (hmiss : s.DOORAY_LOGIN_USERNAME = "" ∨ s.DOORAY_LOGIN_PASSWORD = "")
    (hcold : is_cookie_valid st env.t1 = false)
    (hui : env.login1 = .ok raw) :
    request_attendance s st env d ty
      = (.obj [("error",
           .str "DOORAY_LOGIN_USERNAME 또는 DOORAY_LOGIN_PASSWORD가 설정되지 않았습니다.")],
         st, [Event.cookieFetch false, Event.loginFlow, Event.browserLaunch]) ∧
    countPosts (request_attendance s st env d ty).2.2 = 0 ∧
    countBrowserLaunches (request_attendance s st env d ty).2.2 = 1 := by
  have h1 : get_cookies s st env.login1 env.t1 env.t1s false
      = (.error (.otherExn
           "DOORAY_LOGIN_USERNAME 또는 DOORAY_LOGIN_PASSWORD가 설정되지 않았습니다."), st,
         [Event.cookieFetch false, Event.loginFlow, Event.browserLaunch]) := by
    rw [hui]
    simp [get_cookies, hcold, login_and_get_cookies, hmiss]
  have hmain := ra_fetch_error s st env d ty
    (.otherExn "DOORAY_LOGIN_USERNAME 또는 DOORAY_LOGIN_PASSWORD가 설정되지 않았습니다.") st
    [Event.cookieFetch false, Event.loginFlow, Event.browserLaunch] h1
  exact ⟨hmain, by rw [hmain]; rfl, by rw [hmain]; rfl⟩

/-- C5 witness: empty username, cold cache, working login UI. -/
theorem config_error_after_browser_launch_witness :
    request_attendance ⟨"", "p", "uniai"⟩ ⟨none, 5⟩
      ⟨.ok [("S", "x")], .uiTimeout "t", .timeout, .timeout, 0, 1, 2, 3⟩ "2026-01-05" "LEAVE"
      = (.obj [("error",
           .str "DOORAY_LOGIN_USERNAME 또는 DOORAY_LOGIN_PASSWORD가 설정되지 않았습니다.")],
         ⟨none, 5⟩, [Event.cookieFetch false, Event.loginFlow, Event.browserLaunch]) ∧
    countPosts (request_attendance ⟨"", "p", "uniai"⟩ ⟨none, 5⟩
      ⟨.ok [("S", "x")], .uiTimeout "t", .timeout, .timeout, 0, 1, 2, 3⟩
      "2026-01-05" "LEAVE").2.2 = 0 ∧
    countBrowserLaunches (request_attendance ⟨"", "p", "uniai"⟩ ⟨none, 5⟩
      ⟨.ok [("S", "x")], .uiTimeout "t", .timeout, .timeout, 0, 1, 2, 3⟩
      "2026-01-05" "LEAVE").2.2 = 1 := by
  have h := config_error_after_browser_launch ⟨"", "p", "uniai"⟩ ⟨none, 5⟩
    ⟨.ok [("S", "x")], .uiTimeout "t", .timeout, .timeout, 0, 1, 2, 3⟩ "2026-01-05" "LEAVE"
    [("S", "x")] (Or.inl rfl) rfl rfl
  exact ⟨h.1, h.2.1, h.2.2⟩

/-- C6 counterexample: a 401 response whose body is not parseable as JSON
is short-circuited to the fixed auth-failure dict — the returned result
carries neither the HTTP status code nor a body excerpt, against the
claim's "every response". -/
theorem unparseable_body_counterexample :
    (call_attendance_api (build_endpoints ⟨"u", "p", "uniai"⟩) [("c", "v")] "2026-01-05"
      "ENTER" (.response ⟨401, none, "not json"⟩)).1
      = .ok (.obj [("error", .str "인증 실패")], false) ∧
    Json.getField (.obj [("error", .str "인증 실패")]) "status_code" = none ∧
    Json.getField (.obj [("error", .str "인증 실패")]) "response_text" = none :=
  ⟨rfl, rfl, rfl⟩

/-- C6 (amended): for every response that is not short-circuited as a
401/403 auth failure and whose body is not parseable as JSON,
`_call_attendance_api` returns normally, synthesizing a result dict that
carries the HTTP status code and an excerpt of the raw body truncated to
at most 500 characters; in particular an HTTP 500 response with a
non-JSON body yields an error result with status code 500 and a
≤500-character excerpt. -/
theorem unparseable_body_synthesized (endpoints : DoorayEndpoints) (cd : Dict String)
    (d ty : String) (r : HttpResponse) (hjson : r.jsonBody = none)
    (hna : ¬(r.status_code = 401 ∨ r.status_code = 403)) :
    (call_attendance_api endpoints cd d ty (.response r)).1
      = .ok (.obj [("error", .str "JSON 파싱 실패"),
                   ("status_code", .num r.status_code),
                   ("response_text", .str (r.text.take 500))], true) ∧
    (r.text.take 500).length ≤ 500 := by
  constructor
  · simp only [call_attendance_api, if_neg hna, hjson]
    by_cases h200 : r.status_code = 200
    · simp [h200]
    · simp [h200, dictSet]
  · rw [← String.length_data, String.data_take]
    exact le_trans (Nat.le_of_eq (List.length_take _ _)) (Nat.min_le_left _ _)

/-- C6 witness: an HTTP 500 response with a non-JSON body. -/
theorem unparseable_body_synthesized_witness :
    (call_attendance_api (build_endpoints ⟨"u", "p", "uniai"⟩) [("c", "v")] "2026-01-05"
      "ENTER" (.response ⟨500, none, "Internal Server Error"⟩)).1
      = .ok (.obj [("error", .str "JSON 파싱 실패"),
                   ("status_code", .num 500),
                   ("response_text", .str ("Internal Server Error".take 500))], true) ∧
    ("Internal Server Error".take 500).length ≤ 500 :=
  unparseable_body_synthesized (build_endpoints ⟨"u", "p", "uniai"⟩) [("c", "v")] "2026-01-05"
    "ENTER" ⟨500, none, "Internal Server Error"⟩ rfl (by decide)

/-- C7 counterexample: when both POSTs answer 401 with a parseable JSON
body, the final HTTP status (401) is neither used to parse the body nor
written into the result: the returned dict is the fixed auth-failure
error dict, with no "status_code" entry and without the payload's
"header" field. -/
theorem result_status_handling_counterexample :
    (request_attendance ⟨"u", "p", "uniai"⟩ ⟨none, 0⟩
      ⟨.ok [("a", "1")], .ok [("b", "2")],
       .response ⟨401, some (.obj [("header", .bool true)]), "x"⟩,
       .response ⟨401, some (.obj [("header", .bool true)]), "x"⟩,
       0, 1, 2, 3⟩ "2026-01-05" "ENTER").1
      = .obj [("error", .str "인증 실패")] ∧
    Json.getField ((request_attendance ⟨"u", "p", "uniai"⟩ ⟨none, 0⟩
      ⟨.ok [("a", "1")], .ok [("b", "2")],
       .response ⟨401, some (.obj [("header", .bool true)]), "x"⟩,
       .response ⟨401, some (.obj [("header", .bool true)]), "x"⟩,
       0, 1, 2, 3⟩ "2026-01-05" "ENTER").1) "status_code" = none ∧
    Json.getField ((request_attendance ⟨"u", "p", "uniai"⟩ ⟨none, 0⟩
      ⟨.ok [("a", "1")], .ok [("b", "2")],
       .response ⟨401, some (.obj [("header", .bool true)]), "x"⟩,
       .response ⟨401, some (.obj [("header", .bool true)]), "x"⟩,
       0, 1, 2, 3⟩ "2026-01-05" "ENTER").1) "header" = none :=
  ⟨rfl, rfl, rfl⟩

/-- C7 (amended): a 401/403 response short-circuits to the fixed error
dict before any body parsing or annotation; every other response is
parsed as JSON, a non-200 status is written into the parsed dict's
"status_code" entry while every other field — in particular "header",
carrying `isSuccessful` / `resultCode` / `resultMessage` — passes through
unchanged, and a 200 response is returned exactly as parsed. -/
theorem result_status_handling (endpoints : DoorayEndpoints) (cd : Dict String)
    (d ty : String) (r : HttpResponse) :
    ((r.status_code = 401 ∨ r.status_code = 403) →
      (call_attendance_api endpoints cd d ty (.response r)).1
        = .ok (.obj [("error", .str "인증 실패")], false)) ∧
    (∀ fs, ¬(r.status_code = 401 ∨ r.status_code = 403) → r.status_code ≠ 200 →
      r.jsonBody = some (.obj fs) →
      (call_attendance_api endpoints cd d ty (.response r)).1
        = .ok (.obj (dictSet fs "status_code" (.num r.status_code)), true) ∧
      ∀ k, k ≠ "status_code" →
        dictLookup (dictSet fs "status_code" (.num r.status_code)) k = dictLookup fs k) ∧
    (∀ j, r.status_code = 200 → r.jsonBody = some j →
      (call_attendance_api endpoints cd d ty (.response r)).1 = .ok (j, true)) := by
  refine ⟨?_, ?_, ?_⟩
  · intro h
    have := call_auth_failure endpoints cd d ty r h
    rw [this]
  · intro fs hna h200 hjson
    constructor
    · simp [call_attendance_api, if_neg hna, hjson, h200]
    · intro k hk
      exact dictLookup_dictSet_ne fs k "status_code" (.num r.status_code) hk
  · intro j h200 hjson
    have hna : ¬(r.status_code = 401 ∨ r.status_code = 403) := by simp [h200]
    simp [call_attendance_api, if_neg hna, hjson, h200]

/-- C7 witness: a 502 response with a JSON object body gets the status
code written in while its "header" field survives. -/
theorem result_status_handling_witness :
    (call_attendance_api (build_endpoints ⟨"u", "p", "uniai"⟩) [("c", "v")] "2026-01-05"
      "ENTER" (.response ⟨502, some (.obj [("header", .bool true)]), "x"⟩)).1
      = .ok (.obj (dictSet [("header", .bool true)] "status_code" (.num 502)), true) ∧
    dictLookup (dictSet [("header", Json.bool true)] "status_code" (.num 502)) "header"
      = dictLookup [("header", Json.bool true)] "header" := by
  have h := (result_status_handling (build_endpoints ⟨"u", "p", "uniai"⟩) [("c", "v")] "2026-01-05"
    "ENTER" ⟨502, some (.obj [("header", .bool true)]), "x"⟩).2.1
    [("header", .bool true)] (by decide) (by decide) rfl
  exact ⟨h.1, h.2 "header" (by decide)⟩

/-- C8 counterexample: the Referer header the code attaches is the tenant
origin followed by a trailing slash, a different string from the tenant
origin itself that the claim states. -/
theorem post_request_shape_counterexample :
    (call_attendance_api (build_endpoints ⟨"u", "p", "uniai"⟩) [("c", "v")] "2026-01-05"
      "ENTER" .timeout).2
      = [Event.httpPost
          { url := "https://uniai.dooray.com/wapi/work-schedule/v1/working-times"
            jsonPayload := .obj [("baseDate", .str "2026-01-05"), ("attendanceType", .str "ENTER")]
            headers := [("Content-Type", "application/json"),
                        ("Referer", "https://uniai.dooray.com/"),
                        ("Origin", "https://uniai.dooray.com")]
            cookies := [("c", "v")]
            timeoutSeconds := 30 }] ∧
    ("https://uniai.dooray.com/" : String) ≠ "https://uniai.dooray.com" :=
  ⟨rfl, by decide⟩

/-- C8 (amended): every attendance POST goes to
`https://{subdomain}.dooray.com/wapi/work-schedule/v1/working-times`
derived from the configured subdomain, with JSON body
`{"baseDate": date, "attendanceType": type}`, headers `Content-Type:
application/json`, `Origin` set to the tenant origin and `Referer` set to
the tenant origin followed by "/", the supplied session cookies attached
and a request timeout of 30 seconds — whatever the POST's outcome. -/
theorem post_request_shape (s : Settings) (cd : Dict String) (d ty : String)
    (env : PostEnv) :
    (build_endpoints s).origin = "https://" ++ s.DOORAY_SUBDOMAIN ++ ".dooray.com" ∧
    (call_attendance_api (build_endpoints s) cd d ty env).2
      = [Event.httpPost
          { url := (build_endpoints s).origin ++ "/wapi/work-schedule/v1/working-times"
            jsonPayload := .obj [("baseDate", .str d), ("attendanceType", .str ty)]
            headers := [("Content-Type", "application/json"),
                        ("Referer", (build_endpoints s).origin ++ "/"),
                        ("Origin", (build_endpoints s).origin)]
            cookies := cd
            timeoutSeconds := 30 }] := by
  refine ⟨rfl, ?_⟩
  rw [call_events]
  rfl

end WorkingTimes
